import Mathlib

/-!
Verification of the AITravelAgent repository (src/travelagent.py).

The file shallowly embeds the parts of the program the claims are about:

* the tool-calling loop `run_agent_with_tools` (travelagent.py lines 205-245),
  modelled as a fuel-bounded recursion on the remaining iteration budget, with
  the model behaviour (`llm_with_tools.invoke`) abstracted as a function from
  the message list to an assistant turn, and each tool adapter abstracted as a
  function from its arguments to `Except String String` (`.error` models a
  Python exception raised inside the adapter, `.ok` a returned payload string);
* the response-reshaping cores of `get_weather_forecast` (lines 82-129) and
  `get_air_quality` (lines 153-172), with the parsed upstream JSON response
  given as a structured input value.  Python floats are modelled as `Rat`
  (every temperature and boundary the claims mention is exactly representable)
  and integer percentages / AQI values as `Int`.
-/

/-- Named arguments of one tool call (`tool_call["args"]`), a mapping of
argument names to values. -/
abbrev Args := List (String × String)

/-- One Tool Invocation Request as emitted by the model: `tool_call["name"]`,
`tool_call["args"]`, `tool_call["id"]`. -/
structure ToolCall where
  name : String
  args : Args
  id : String
deriving DecidableEq

/-- A message of the Conversation State: system / human / assistant (with its
list of tool calls) / tool-result (with the correlating `tool_call_id`). -/
inductive Message where
  | system (content : String)
  | human (content : String)
  | ai (content : String) (tool_calls : List ToolCall)
  | toolMsg (content : String) (tool_call_id : String)
deriving DecidableEq

/-- The tool registry `tool_map`: a lookup from tool name to adapter.  An
adapter returns `.ok payload` (the string the Python tool returns) or
`.error e` (a Python exception raised inside the adapter). -/
abbrev ToolMap := String → Option (Args → Except String String)

/-- The bound model `llm_with_tools.invoke`: from the current message list to
the assistant turn's content and `tool_calls`. -/
abbrev LLM := List Message → String × List ToolCall

/-- Diagnostics printed by the loop: `print(f"Calling tool: ...")` and
`print(f"Tool ... not found!")`. -/
inductive LogEntry where
  | calling (name : String) (args : Args)
  | notFound (name : String)
deriving DecidableEq

/-- The inner `for tool_call in response.tool_calls` loop (travelagent.py lines
227-243): for each request, print the calling diagnostic; if the name is in
`tool_map`, invoke the adapter and append a `ToolMessage` carrying the
request's id (an adapter exception aborts the whole call, since the Python
code has no `try`/`except` here); otherwise print the not-found diagnostic and
append nothing.  Returns the resulting message list (or the propagated
exception) together with the printed diagnostics. -/
def execToolCalls (tool_map : ToolMap) :
    List ToolCall → List Message → Except String (List Message) × List LogEntry
  | [], messages => (.ok messages, [])
  | tc :: rest, messages =>
    match tool_map tc.name with
    | some adapter =>
      match adapter tc.args with
      | .ok r =>
        let next := execToolCalls tool_map rest
          (messages ++ [Message.toolMsg r tc.id])
        (next.1, LogEntry.calling tc.name tc.args :: next.2)
      | .error e => (.error e, [LogEntry.calling tc.name tc.args])
    | none =>
      let next := execToolCalls tool_map rest messages
      (next.1, LogEntry.calling tc.name tc.args ::
        LogEntry.notFound tc.name :: next.2)

/-- The `while iteration < max_iterations` loop of `run_agent_with_tools`,
recursing on the remaining budget.  Each round invokes the model, appends the
assistant message, stops if it carries no tool calls, and otherwise dispatches
the requests through `execToolCalls`.  The second component counts the model
invocations performed. -/
def runLoop (llm : LLM) (tool_map : ToolMap) :
    Nat → List Message → Except String (List Message) × Nat
  | 0, messages => (.ok messages, 0)
  | n + 1, messages =>
    let response := llm messages
    let messages1 := messages ++ [Message.ai response.1 response.2]
    if response.2 = [] then
      (.ok messages1, 1)
    else
      match (execToolCalls tool_map response.2 messages1).1 with
      | .ok m2 =>
        let r := runLoop llm tool_map n m2
        (r.1, r.2 + 1)
      | .error e => (.error e, 1)

/-- `run_agent_with_tools(llm_with_tools, tool_map, messages, max_iterations)`
(travelagent.py lines 205-245); every call site uses the default
`max_iterations = 15`.  Result: the final message list (`.error` when an
adapter exception propagates out uncaught) paired with the number of model
invocations performed. -/
def run_agent_with_tools (llm : LLM) (tool_map : ToolMap)
    (messages : List Message) (max_iterations : Nat) :
    Except String (List Message) × Nat :=
  runLoop llm tool_map max_iterations messages

/-- The `tool_call_id` carried by a message, when it is a tool-result. -/
def msgToolId : Message → Option String
  | .toolMsg _ i => some i
  | _ => none

/-- A `displayDate` object of the weather response. -/
structure DisplayDate where
  year : Nat
  month : Nat
  day : Nat
deriving DecidableEq

/-- One element of the `forecastDays` list of the weather response, with the
fields `get_weather_forecast` reads. -/
structure ForecastDay where
  displayDate : DisplayDate
  maxTemperature : Rat
  minTemperature : Rat
  precipProb : Int
  condition : String
  feelsLikeMax : Rat
  feelsLikeMin : Rat
  windKph : Rat
deriving DecidableEq

/-- The parsed weather upstream response: HTTP status and `forecastDays`
(`data.get("forecastDays", [])`). -/
structure WeatherResponse where
  status_code : Nat
  forecastDays : List ForecastDay
deriving DecidableEq

/-- The success payload of `get_weather_forecast` (the `result` dict built at
travelagent.py lines 114-125). -/
structure WeatherReport where
  date : String
  condition : String
  max_temp_c : Rat
  min_temp_c : Rat
  feels_like_max_c : Rat
  feels_like_min_c : Rat
  precipitation_probability : Int
  wind_kph : Rat
  umbrella_needed : String
  clothing_recommendation : String
deriving DecidableEq

/-- Python `f"{n:02d}"` for a nonnegative value: left-pad with a zero to two
digits. -/
def pad2 (n : Nat) : String :=
  if n < 10 then "0" ++ toString n else toString n

/-- The display date string `f"{d['year']}-{d['month']:02d}-{d['day']:02d}"`. -/
def formatDate (d : DisplayDate) : String :=
  toString d.year ++ "-" ++ pad2 d.month ++ "-" ++ pad2 d.day

/-- The clothing base assignment (lines 100-107): four tiers over the average
temperature, each guarded by a strict comparison. -/
def clothingTier (avg_temp : Rat) : String :=
  if avg_temp < 0 then "heavy winter coat, thermal layers, gloves, hat"
  else if avg_temp < 10 then "warm jacket and sweater"
  else if avg_temp < 20 then "light jacket or cardigan"
  else "t-shirt and light clothing"

/-- The clothing string after the precipitation additions (lines 109-112):
`+= ", waterproof jacket"` when the probability exceeds 50, else
`+= ", carry an umbrella"` when it exceeds 30. -/
def clothingFor (avg_temp : Rat) (precip_prob : Int) : String :=
  if precip_prob > 50 then clothingTier avg_temp ++ ", waterproof jacket"
  else if precip_prob > 30 then clothingTier avg_temp ++ ", carry an umbrella"
  else clothingTier avg_temp

/-- The body of the matched-day branch of `get_weather_forecast` (lines
93-127): build the result dict from the day's fields. -/
def processDay (day : ForecastDay) : WeatherReport :=
  let avg_temp := (day.maxTemperature + day.minTemperature) / 2
  { date := formatDate day.displayDate
    condition := day.condition
    max_temp_c := day.maxTemperature
    min_temp_c := day.minTemperature
    feels_like_max_c := day.feelsLikeMax
    feels_like_min_c := day.feelsLikeMin
    precipitation_probability := day.precipProb
    wind_kph := day.windKph
    umbrella_needed := if day.precipProb > 30 then "Yes" else "No"
    clothing_recommendation := clothingFor avg_temp day.precipProb }

/-- The `for day in data.get("forecastDays", [])` scan (lines 88-129): return
the processed first day whose display date equals the requested date, else the
no-forecast error payload. -/
def findForecast (date : String) : List ForecastDay → Except String WeatherReport
  | [] => .error ("No forecast for " ++ date ++ ". Only next 4 days available.")
  | day :: rest =>
    if formatDate day.displayDate = date then .ok (processDay day)
    else findForecast date rest

/-- `get_weather_forecast` on a parsed upstream response (lines 82-129): the
non-200 guard, then the day scan. -/
def get_weather_forecast (resp : WeatherResponse) (date : String) :
    Except String WeatherReport :=
  if resp.status_code ≠ 200 then .error "Failed to fetch weather data"
  else findForecast date resp.forecastDays

/-- One element of the `indexes` list of the air-quality response; `aqi` and
`category` are read with `dict.get` defaults, so each may be absent. -/
structure AQIndex where
  aqi : Option Int
  category : Option String
deriving DecidableEq

/-- The parsed air-quality upstream response: HTTP status and
`data.get("indexes", [])`. -/
structure AQResponse where
  status_code : Nat
  indexes : List AQIndex
deriving DecidableEq

/-- The success payload of `get_air_quality` (lines 166-170). -/
structure AQReport where
  aqi : Int
  category : String
  mask_needed : String
deriving DecidableEq

/-- `get_air_quality` on a parsed upstream response (lines 153-172): non-200
guard, empty-indexes guard, then `indexes[0].get("aqi", 0)`,
`indexes[0].get("category", "Unknown")` and the AQI > 100 mask rule. -/
def get_air_quality (resp : AQResponse) : Except String AQReport :=
  if resp.status_code ≠ 200 then .error "Failed to fetch air quality"
  else
    match resp.indexes with
    | [] => .error "No air quality data available"
    | idx :: _ =>
      let aqi_value := idx.aqi.getD 0
      let aqi_category := idx.category.getD "Unknown"
      .ok { aqi := aqi_value
            category := aqi_category
            mask_needed := if aqi_value > 100 then "Yes" else "No" }

/-! ## Concrete scenarios used as counterexamples and witnesses -/

/-- A concrete Tool Invocation Request for the air-quality tool. -/
def demoTC : ToolCall :=
  ⟨"get_air_quality", [("latitude", "48.85"), ("longitude", "2.35")], "call_1"⟩

/-- A concrete model behaviour: request the air-quality tool once, then answer
without tool calls. -/
def demoLLM : LLM := fun messages =>
  if messages.length ≤ 2 then ("", [demoTC])
  else ("Here is your travel plan.", [])

/-- A concrete registry holding one adapter that returns normally. -/
def demoToolMap : ToolMap := fun nm =>
  if nm = "get_air_quality" then some (fun _ => .ok "aqi 42") else none

/-- The seeded Conversation State of `main`: a system prompt and a user
request. -/
def demoInit : List Message :=
  [Message.system "You are an AI travel planning assistant.",
   Message.human "Plan my trip."]

/-- The Conversation State `run_agent_with_tools demoLLM demoToolMap demoInit`
returns. -/
def demoFinal : List Message :=
  demoInit ++
    [Message.ai "" [demoTC],
     Message.toolMsg "aqi 42" "call_1",
     Message.ai "Here is your travel plan." []]

/-- A model behaviour that always requests the weather tool. -/
def cexLLM : LLM := fun _ =>
  ("", [⟨"get_weather_forecast",
    [("latitude", "48.85"), ("longitude", "2.35"), ("date", "2026-02-16")],
    "call_9"⟩])

/-- A registry whose weather adapter raises (models `response.json()` raising
on a non-JSON upstream body). -/
def cexToolMap : ToolMap := fun nm =>
  if nm = "get_weather_forecast" then some (fun _ => .error "boom") else none

/-- A model behaviour that requests the place-details tool once. -/
def raiseLLM : LLM := fun messages =>
  if messages.length ≤ 2 then
    ("", [⟨"get_place_details",
      [("place_name", "Eiffel Tower"), ("city", "Paris")], "call_2"⟩])
  else ("done", [])

/-- A registry whose place-details adapter raises a JSON decoding error. -/
def raiseToolMap : ToolMap := fun nm =>
  if nm = "get_place_details" then
    some (fun _ => .error "JSONDecodeError: Expecting value")
  else none

/-- A registered request followed by a request for an unknown tool, as one
assistant turn could emit them. -/
def mixedTCs : List ToolCall :=
  [⟨"get_air_quality", [("latitude", "48.85"), ("longitude", "2.35")], "id1"⟩,
   ⟨"book_hotel", [("city", "Paris")], "id2"⟩]

/-- A forecast day whose average temperature is exactly 10. -/
def dayAvgTen : ForecastDay := ⟨⟨2026, 2, 16⟩, 12, 8, 10, "Cloudy", 12, 8, 10⟩

/-- A forecast day whose average temperature is exactly 20. -/
def dayAvgTwenty : ForecastDay := ⟨⟨2026, 2, 17⟩, 25, 15, 10, "Sunny", 25, 15, 5⟩

/-- A forecast day with precipitation probability 65. -/
def dayRainy : ForecastDay := ⟨⟨2026, 2, 16⟩, 12, 8, 65, "Rain", 12, 8, 20⟩

/-- A 4-day forecast response, 2026-02-16 through 2026-02-19, as the upstream
returns for `days=4`. -/
def fourDayResp : WeatherResponse :=
  ⟨200,
   [⟨⟨2026, 2, 16⟩, 12, 8, 10, "Cloudy", 12, 8, 10⟩,
    ⟨⟨2026, 2, 17⟩, 13, 7, 20, "Sunny", 13, 7, 11⟩,
    ⟨⟨2026, 2, 18⟩, 14, 6, 30, "Sunny", 14, 6, 12⟩,
    ⟨⟨2026, 2, 19⟩, 15, 5, 40, "Rain", 15, 5, 13⟩]⟩

/-! ## Helper lemmas about the dispatch of one iteration -/

/-- When the inner dispatch loop completes without an adapter exception, the
new message list is the old one plus a suffix of tool-result messages whose
`tool_call_id`s are, in order, exactly the ids of the registered requests. -/
theorem execToolCalls_ok_spec (tool_map : ToolMap) :
    ∀ (tcs : List ToolCall) (messages msgs2 : List Message),
      (execToolCalls tool_map tcs messages).1 = .ok msgs2 →
      ∃ suffix : List Message,
        msgs2 = messages ++ suffix ∧
        suffix.map msgToolId =
          (tcs.filter fun tc => (tool_map tc.name).isSome).map
            (fun tc => some tc.id) := by
  intro tcs
  induction tcs with
  | nil =>
    intro messages msgs2 h
    simp only [execToolCalls, Except.ok.injEq] at h
    exact ⟨[], by simp [h]⟩
  | cons tc rest ih =>
    intro messages msgs2 h
    cases htm : tool_map tc.name with
    | none =>
      simp only [execToolCalls, htm] at h
      obtain ⟨suffix, hs, hm⟩ := ih messages msgs2 h
      exact ⟨suffix, hs, by simp [List.filter_cons, htm, hm]⟩
    | some adapter =>
      cases hf : adapter tc.args with
      | error e => simp [execToolCalls, htm, hf] at h
      | ok r =>
        simp only [execToolCalls, htm, hf] at h
        obtain ⟨suffix, hs, hm⟩ := ih _ msgs2 h
        refine ⟨Message.toolMsg r tc.id :: suffix, ?_, ?_⟩
        · simp [hs]
        · simp [List.filter_cons, htm, msgToolId, hm]

/-- When every registered adapter returns normally, the inner dispatch loop
completes without an adapter exception. -/
theorem execToolCalls_total (tool_map : ToolMap)
    (htot : ∀ nm f, tool_map nm = some f → ∀ a, ∃ r, f a = .ok r) :
    ∀ (tcs : List ToolCall) (messages : List Message),
      ∃ msgs2, (execToolCalls tool_map tcs messages).1 = .ok msgs2 := by
  intro tcs
  induction tcs with
  | nil => intro messages; exact ⟨messages, rfl⟩
  | cons tc rest ih =>
    intro messages
    cases htm : tool_map tc.name with
    | none =>
      obtain ⟨msgs2, h⟩ := ih messages
      exact ⟨msgs2, by simp only [execToolCalls, htm]; exact h⟩
    | some adapter =>
      obtain ⟨r, hr⟩ := htot tc.name adapter htm tc.args
      obtain ⟨msgs2, h⟩ := ih (messages ++ [Message.toolMsg r tc.id])
      exact ⟨msgs2, by simp only [execToolCalls, htm, hr]; exact h⟩

/-- When the dispatch loop completes and a request names an unregistered tool,
the not-found diagnostic for that tool is among the printed lines. -/
theorem execToolCalls_notFound_log (tool_map : ToolMap) :
    ∀ (tcs : List ToolCall) (messages msgs2 : List Message) (tc : ToolCall),
      tc ∈ tcs → tool_map tc.name = none →
      (execToolCalls tool_map tcs messages).1 = .ok msgs2 →
      LogEntry.notFound tc.name ∈ (execToolCalls tool_map tcs messages).2 := by
  intro tcs
  induction tcs with
  | nil => intro messages msgs2 tc hmem; simp at hmem
  | cons c rest ih =>
    intro messages msgs2 tc hmem hnone hok
    cases htm : tool_map c.name with
    | none =>
      simp only [execToolCalls, htm] at hok ⊢
      rcases List.mem_cons.mp hmem with heq | hmem2
      · subst heq; simp
      · simp only [List.mem_cons]
        exact Or.inr (Or.inr (ih messages msgs2 tc hmem2 hnone hok))
    | some adapter =>
      cases hf : adapter c.args with
      | error e => simp [execToolCalls, htm, hf] at hok
      | ok r =>
        simp only [execToolCalls, htm, hf] at hok ⊢
        rcases List.mem_cons.mp hmem with heq | hmem2
        · subst heq; rw [htm] at hnone; exact absurd hnone (by simp)
        · simp only [List.mem_cons]
          exact Or.inr (ih _ msgs2 tc hmem2 hnone hok)

/-! ## Helper lemmas about the outer loop -/

/-- The loop performs at most as many model invocations as its remaining
budget. -/
theorem runLoop_count_le (llm : LLM) (tool_map : ToolMap) :
    ∀ (n : Nat) (messages : List Message),
      (runLoop llm tool_map n messages).2 ≤ n := by
  intro n
  induction n with
  | zero => intro messages; simp [runLoop]
  | succ n ih =>
    intro messages
    by_cases hresp : (llm messages).2 = []
    · simp [runLoop, hresp]
    · cases hexec : (execToolCalls tool_map (llm messages).2
          (messages ++ [Message.ai (llm messages).1 (llm messages).2])).1 with
      | ok m2 =>
        simp only [runLoop, if_neg hresp, hexec]
        exact Nat.succ_le_succ (ih m2)
      | error e => simp [runLoop, hresp, hexec]

/-- When the loop returns normally, the result extends the input message
list. -/
theorem runLoop_ok_append (llm : LLM) (tool_map : ToolMap) :
    ∀ (n : Nat) (messages msgs2 : List Message),
      (runLoop llm tool_map n messages).1 = .ok msgs2 →
      ∃ t, msgs2 = messages ++ t := by
  intro n
  induction n with
  | zero =>
    intro messages msgs2 h
    simp only [runLoop, Except.ok.injEq] at h
    exact ⟨[], by simp [h]⟩
  | succ n ih =>
    intro messages msgs2 h
    by_cases hresp : (llm messages).2 = []
    · simp only [runLoop, if_pos hresp, Except.ok.injEq] at h
      exact ⟨[Message.ai (llm messages).1 (llm messages).2], h.symm⟩
    · cases hexec : (execToolCalls tool_map (llm messages).2
          (messages ++ [Message.ai (llm messages).1 (llm messages).2])).1 with
      | ok m2 =>
        simp only [runLoop, if_neg hresp, hexec] at h
        obtain ⟨t2, ht2⟩ := ih m2 msgs2 h
        obtain ⟨t1, ht1⟩ := execToolCalls_ok_spec tool_map _ _ _ hexec
        exact ⟨[Message.ai (llm messages).1 (llm messages).2] ++ t1 ++ t2,
          by simp [ht2, ht1.1]⟩
      | error e => simp [runLoop, hresp, hexec] at h

/-- When every registered adapter returns normally, the loop returns
normally. -/
theorem runLoop_total (llm : LLM) (tool_map : ToolMap)
    (htot : ∀ nm f, tool_map nm = some f → ∀ a, ∃ r, f a = .ok r) :
    ∀ (n : Nat) (messages : List Message),
      ∃ msgs2, (runLoop llm tool_map n messages).1 = .ok msgs2 := by
  intro n
  induction n with
  | zero => intro messages; exact ⟨messages, rfl⟩
  | succ n ih =>
    intro messages
    by_cases hresp : (llm messages).2 = []
    · exact ⟨messages ++ [Message.ai (llm messages).1 (llm messages).2],
        by simp [runLoop, hresp]⟩
    · obtain ⟨m2, hexec⟩ := execToolCalls_total tool_map htot (llm messages).2
        (messages ++ [Message.ai (llm messages).1 (llm messages).2])
      obtain ⟨msgs2, hrec⟩ := ih m2
      exact ⟨msgs2, by simp only [runLoop, if_neg hresp, hexec]; exact hrec⟩

/-! ## Helper lemmas about the weather adapter -/

/-- A successful scan returns the processed first matching day. -/
theorem findForecast_ok_shape :
    ∀ (days : List ForecastDay) (date : String) (r : WeatherReport),
      findForecast date days = .ok r →
      ∃ day, formatDate day.displayDate = date ∧ r = processDay day := by
  intro days
  induction days with
  | nil => intro date r h; simp [findForecast] at h
  | cons day rest ih =>
    intro date r h
    by_cases hd : formatDate day.displayDate = date
    · simp only [findForecast, if_pos hd, Except.ok.injEq] at h
      exact ⟨day, hd, h.symm⟩
    · simp only [findForecast, if_neg hd] at h
      exact ih date r h

/-- A successful `get_weather_forecast` call returns the processed first
matching day of the response. -/
theorem get_weather_forecast_ok_shape (resp : WeatherResponse) (date : String)
    (r : WeatherReport) (h : get_weather_forecast resp date = .ok r) :
    ∃ day, formatDate day.displayDate = date ∧ r = processDay day := by
  unfold get_weather_forecast at h
  split at h
  · simp at h
  · exact findForecast_ok_shape _ _ _ h

/-- The precipitation additions only ever append to the tier string. -/
theorem clothingFor_shape (avg : Rat) (p : Int) :
    clothingFor avg p = clothingTier avg ++ ", waterproof jacket" ∨
    clothingFor avg p = clothingTier avg ++ ", carry an umbrella" ∨
    clothingFor avg p = clothingTier avg := by
  unfold clothingFor
  split
  · exact Or.inl rfl
  · split
    · exact Or.inr (Or.inl rfl)
    · exact Or.inr (Or.inr rfl)

/-- Tier below 0. -/
theorem clothingTier_below_zero (avg : Rat) (h : avg < 0) :
    clothingTier avg = "heavy winter coat, thermal layers, gloves, hat" := by
  simp [clothingTier, h]

/-- Tier in [0, 10). -/
theorem clothingTier_zero_ten (avg : Rat) (h0 : 0 ≤ avg) (h10 : avg < 10) :
    clothingTier avg = "warm jacket and sweater" := by
  simp [clothingTier, not_lt.mpr h0, h10]

/-- Tier in [10, 20). -/
theorem clothingTier_ten_twenty (avg : Rat) (h10 : 10 ≤ avg) (h20 : avg < 20) :
    clothingTier avg = "light jacket or cardigan" := by
  have h0 : (0 : Rat) ≤ avg := le_trans (by norm_num) h10
  simp [clothingTier, not_lt.mpr h0, not_lt.mpr h10, h20]

/-- Tier at and above 20. -/
theorem clothingTier_twenty_up (avg : Rat) (h20 : 20 ≤ avg) :
    clothingTier avg = "t-shirt and light clothing" := by
  have h0 : (0 : Rat) ≤ avg := le_trans (by norm_num) h20
  have h10 : (10 : Rat) ≤ avg := le_trans (by norm_num) h20
  simp [clothingTier, not_lt.mpr h0, not_lt.mpr h10, not_lt.mpr h20]

/-- An unmatched scan returns the no-forecast error payload. -/
theorem findForecast_no_match :
    ∀ (days : List ForecastDay) (date : String),
      (∀ day ∈ days, formatDate day.displayDate ≠ date) →
      findForecast date days =
        .error ("No forecast for " ++ date ++ ". Only next 4 days available.") := by
  intro days
  induction days with
  | nil => intro date _; rfl
  | cons day rest ih =>
    intro date hno
    have hd : formatDate day.displayDate ≠ date := hno day (by simp)
    simp only [findForecast, if_neg hd]
    exact ih date fun d hd2 => hno d (by simp [hd2])

/-! ## Claim theorems: weather adapter -/

/-- C4: for every matched forecast day, `get_weather_forecast` buckets the
average of min and max temperature into exactly four clothing tiers with
strict upper bounds: average < 0 yields heavy winter gear, 0 <= average < 10
the warm-jacket tier, 10 <= average < 20 the light-jacket tier (so exactly
10.0 resolves to "light jacket or cardigan"), and average >= 20 light clothing
(so exactly 20.0 resolves to "t-shirt and light clothing").  The returned
clothing string begins with the tier text; the precipitation logic can only
append to it. -/
theorem weather_clothing_tiers (resp : WeatherResponse) (date : String)
    (r : WeatherReport) (h : get_weather_forecast resp date = .ok r) :
    ((r.max_temp_c + r.min_temp_c) / 2 < 0 →
      ∃ s, r.clothing_recommendation =
        "heavy winter coat, thermal layers, gloves, hat" ++ s) ∧
    (0 ≤ (r.max_temp_c + r.min_temp_c) / 2 →
      (r.max_temp_c + r.min_temp_c) / 2 < 10 →
      ∃ s, r.clothing_recommendation = "warm jacket and sweater" ++ s) ∧
    (10 ≤ (r.max_temp_c + r.min_temp_c) / 2 →
      (r.max_temp_c + r.min_temp_c) / 2 < 20 →
      ∃ s, r.clothing_recommendation = "light jacket or cardigan" ++ s) ∧
    (20 ≤ (r.max_temp_c + r.min_temp_c) / 2 →
      ∃ s, r.clothing_recommendation = "t-shirt and light clothing" ++ s) := by
  obtain ⟨day, -, rfl⟩ := get_weather_forecast_ok_shape resp date r h
  have hmax : (processDay day).max_temp_c = day.maxTemperature := rfl
  have hmin : (processDay day).min_temp_c = day.minTemperature := rfl
  have hcl : (processDay day).clothing_recommendation =
      clothingFor ((day.maxTemperature + day.minTemperature) / 2)
        day.precipProb := rfl
  rw [hmax, hmin, hcl]
  refine ⟨fun h1 => ?_, fun h1 h2 => ?_, fun h1 h2 => ?_, fun h1 => ?_⟩
  · rcases clothingFor_shape _ day.precipProb with hc | hc | hc
    · exact ⟨", waterproof jacket", by rw [hc, clothingTier_below_zero _ h1]⟩
    · exact ⟨", carry an umbrella", by rw [hc, clothingTier_below_zero _ h1]⟩
    · exact ⟨"", by rw [hc, clothingTier_below_zero _ h1]; decide⟩
  · rcases clothingFor_shape _ day.precipProb with hc | hc | hc
    · exact ⟨", waterproof jacket", by rw [hc, clothingTier_zero_ten _ h1 h2]⟩
    · exact ⟨", carry an umbrella", by rw [hc, clothingTier_zero_ten _ h1 h2]⟩
    · exact ⟨"", by rw [hc, clothingTier_zero_ten _ h1 h2]; decide⟩
  · rcases clothingFor_shape _ day.precipProb with hc | hc | hc
    · exact ⟨", waterproof jacket", by rw [hc, clothingTier_ten_twenty _ h1 h2]⟩
    · exact ⟨", carry an umbrella", by rw [hc, clothingTier_ten_twenty _ h1 h2]⟩
    · exact ⟨"", by rw [hc, clothingTier_ten_twenty _ h1 h2]; decide⟩
  · rcases clothingFor_shape _ day.precipProb with hc | hc | hc
    · exact ⟨", waterproof jacket", by rw [hc, clothingTier_twenty_up _ h1]⟩
    · exact ⟨", carry an umbrella", by rw [hc, clothingTier_twenty_up _ h1]⟩
    · exact ⟨"", by rw [hc, clothingTier_twenty_up _ h1]; decide⟩

/-- Witness for C4: a day with average exactly 10 resolves to the light-jacket
tier and a day with average exactly 20 to the light-clothing tier, via
`weather_clothing_tiers` on concrete responses. -/
theorem weather_clothing_tiers_witness :
    (∃ s, (processDay dayAvgTen).clothing_recommendation =
      "light jacket or cardigan" ++ s) ∧
    (∃ s, (processDay dayAvgTwenty).clothing_recommendation =
      "t-shirt and light clothing" ++ s) := by
  have h10 : get_weather_forecast ⟨200, [dayAvgTen]⟩ "2026-02-16" =
      .ok (processDay dayAvgTen) := rfl
  have h20 : get_weather_forecast ⟨200, [dayAvgTwenty]⟩ "2026-02-17" =
      .ok (processDay dayAvgTwenty) := rfl
  constructor
  · exact (weather_clothing_tiers _ _ _ h10).2.2.1
      (by norm_num [processDay, dayAvgTen]) (by norm_num [processDay, dayAvgTen])
  · exact (weather_clothing_tiers _ _ _ h20).2.2.2
      (by norm_num [processDay, dayAvgTwenty])

/-- C5: for every matched forecast day, the waterproof-jacket addition is
appended exactly when precipitation probability exceeds 50, the umbrella
suggestion exactly when it exceeds 30 but not 50, and `umbrella_needed` is
"Yes" exactly when it exceeds 30. -/
theorem weather_precipitation_rules (resp : WeatherResponse) (date : String)
    (r : WeatherReport) (h : get_weather_forecast resp date = .ok r) :
    (r.umbrella_needed = "Yes" ↔ 30 < r.precipitation_probability) ∧
    (50 < r.precipitation_probability →
      r.clothing_recommendation =
        clothingTier ((r.max_temp_c + r.min_temp_c) / 2) ++
          ", waterproof jacket") ∧
    (30 < r.precipitation_probability → r.precipitation_probability ≤ 50 →
      r.clothing_recommendation =
        clothingTier ((r.max_temp_c + r.min_temp_c) / 2) ++
          ", carry an umbrella") ∧
    (r.precipitation_probability ≤ 30 →
      r.clothing_recommendation =
        clothingTier ((r.max_temp_c + r.min_temp_c) / 2)) := by
  obtain ⟨day, -, rfl⟩ := get_weather_forecast_ok_shape resp date r h
  have hp : (processDay day).precipitation_probability = day.precipProb := rfl
  have hu : (processDay day).umbrella_needed =
      (if day.precipProb > 30 then "Yes" else "No") := rfl
  have hcl : (processDay day).clothing_recommendation =
      clothingFor (((processDay day).max_temp_c +
        (processDay day).min_temp_c) / 2) day.precipProb := rfl
  rw [hp, hu, hcl]
  refine ⟨?_, fun h1 => ?_, fun h1 h2 => ?_, fun h1 => ?_⟩
  · by_cases h30 : 30 < day.precipProb
    · simp [h30]
    · simp [h30]
  · rw [clothingFor, if_pos h1]
  · rw [clothingFor, if_neg (not_lt.mpr h2), if_pos h1]
  · rw [clothingFor, if_neg (not_lt.mpr (le_trans h1 (by norm_num))),
      if_neg (not_lt.mpr h1)]

/-- Witness for C5: the day with precipitation probability 65 yields
`umbrella_needed = "Yes"` and the waterproof-jacket addition, via
`weather_precipitation_rules` on a concrete response. -/
theorem weather_precipitation_rules_witness :
    (processDay dayRainy).umbrella_needed = "Yes" ∧
    (processDay dayRainy).clothing_recommendation =
      clothingTier (((processDay dayRainy).max_temp_c +
        (processDay dayRainy).min_temp_c) / 2) ++ ", waterproof jacket" := by
  have h : get_weather_forecast ⟨200, [dayRainy]⟩ "2026-02-16" =
      .ok (processDay dayRainy) := rfl
  refine ⟨?_, ?_⟩
  · exact (weather_precipitation_rules _ _ _ h).1.mpr
      (by norm_num [processDay, dayRainy])
  · exact (weather_precipitation_rules _ _ _ h).2.1
      (by norm_num [processDay, dayRainy])

/-- C6: when no fetched day's display date equals the requested date string,
`get_weather_forecast` returns the no-forecast error payload (never a partial
match), and a non-200 upstream response yields the fetch-failure error
payload. -/
theorem weather_out_of_horizon (resp : WeatherResponse) (date : String) :
    (resp.status_code ≠ 200 →
      get_weather_forecast resp date = .error "Failed to fetch weather data") ∧
    (resp.status_code = 200 →
      (∀ day ∈ resp.forecastDays, formatDate day.displayDate ≠ date) →
      get_weather_forecast resp date =
        .error ("No forecast for " ++ date ++
          ". Only next 4 days available.")) := by
  constructor
  · intro hst
    simp [get_weather_forecast, hst]
  · intro hst hno
    unfold get_weather_forecast
    rw [if_neg (by simp [hst])]
    exact findForecast_no_match _ _ hno

/-- Witness for C6: the 4-day response for 2026-02-16 through 2026-02-19 gives
the no-forecast payload for 2026-02-21 (5 days out), and a 500 status gives
the fetch-failure payload, via `weather_out_of_horizon`. -/
theorem weather_out_of_horizon_witness :
    get_weather_forecast fourDayResp "2026-02-21" =
      .error ("No forecast for " ++ "2026-02-21" ++
        ". Only next 4 days available.") ∧
    get_weather_forecast ⟨500, []⟩ "2026-02-16" =
      .error "Failed to fetch weather data" := by
  constructor
  · exact (weather_out_of_horizon fourDayResp "2026-02-21").2 rfl (by decide)
  · exact (weather_out_of_horizon ⟨500, []⟩ "2026-02-16").1 (by decide)

/-! ## Claim theorems: air-quality adapter -/

/-- C7: `get_air_quality` returns the first reported index's AQI value and
category with `mask_needed = "Yes"` exactly when that AQI exceeds 100, and an
error payload when the upstream call fails or the indexes list is empty. -/
theorem air_quality_first_index (resp : AQResponse) :
    (resp.status_code ≠ 200 →
      get_air_quality resp = .error "Failed to fetch air quality") ∧
    (resp.status_code = 200 → resp.indexes = [] →
      get_air_quality resp = .error "No air quality data available") ∧
    (∀ (a : Int) (c : String) (idx : AQIndex) (rest : List AQIndex),
      resp.status_code = 200 → resp.indexes = idx :: rest →
      idx.aqi = some a → idx.category = some c →
      ∃ rep, get_air_quality resp = .ok rep ∧
        rep.aqi = a ∧ rep.category = c ∧
        rep.mask_needed = (if 100 < a then "Yes" else "No") ∧
        (rep.mask_needed = "Yes" ↔ 100 < a)) := by
  refine ⟨fun hst => by simp [get_air_quality, hst], fun hst hidx => ?_,
    fun a c idx rest hst hidx ha hc => ?_⟩
  · simp [get_air_quality, hst, hidx]
  · refine ⟨⟨a, c, if 100 < a then "Yes" else "No"⟩, ?_, rfl, rfl, rfl, ?_⟩
    · simp [get_air_quality, hst, hidx, ha, hc]
    · by_cases h100 : 100 < a
      · simp [h100]
      · simp [h100]

/-- Witness for C7: a first index with AQI 150 yields `mask_needed = "Yes"`
and one with AQI 100 yields `mask_needed = "No"`, via
`air_quality_first_index` on concrete responses; a 500 status and an empty
indexes list yield the error payloads. -/
theorem air_quality_first_index_witness :
    (∃ rep, get_air_quality ⟨200, [⟨some 150, some "Unhealthy"⟩]⟩ = .ok rep ∧
      rep.aqi = 150 ∧ rep.category = "Unhealthy" ∧
      rep.mask_needed = (if (100 : Int) < 150 then "Yes" else "No") ∧
      (rep.mask_needed = "Yes" ↔ (100 : Int) < 150)) ∧
    (∃ rep, get_air_quality ⟨200, [⟨some 100, some "Moderate"⟩]⟩ = .ok rep ∧
      rep.aqi = 100 ∧ rep.category = "Moderate" ∧
      rep.mask_needed = (if (100 : Int) < 100 then "Yes" else "No") ∧
      (rep.mask_needed = "Yes" ↔ (100 : Int) < 100)) ∧
    get_air_quality ⟨500, []⟩ = .error "Failed to fetch air quality" ∧
    get_air_quality ⟨200, []⟩ = .error "No air quality data available" := by
  refine ⟨?_, ?_, ?_, ?_⟩
  · exact (air_quality_first_index ⟨200, [⟨some 150, some "Unhealthy"⟩]⟩).2.2
      150 "Unhealthy" ⟨some 150, some "Unhealthy"⟩ [] rfl rfl rfl rfl
  · exact (air_quality_first_index ⟨200, [⟨some 100, some "Moderate"⟩]⟩).2.2
      100 "Moderate" ⟨some 100, some "Moderate"⟩ [] rfl rfl rfl rfl
  · exact (air_quality_first_index ⟨500, []⟩).1 (by decide)
  · exact (air_quality_first_index ⟨200, []⟩).2.1 rfl rfl

/-- C10: a successful response whose first index lacks the "aqi" field does
not fail: the AQI defaults to 0 via `dict.get`, a missing category defaults to
"Unknown", and the result is `mask_needed = "No"`, not an error payload. -/
theorem air_quality_missing_aqi_defaults (resp : AQResponse) (idx : AQIndex)
    (rest : List AQIndex) (hst : resp.status_code = 200)
    (hidx : resp.indexes = idx :: rest) (ha : idx.aqi = none) :
    get_air_quality resp = .ok ⟨0, idx.category.getD "Unknown", "No"⟩ ∧
    (idx.category = none →
      get_air_quality resp = .ok ⟨0, "Unknown", "No"⟩) := by
  constructor
  · simp [get_air_quality, hst, hidx, ha]
  · intro hc
    simp [get_air_quality, hst, hidx, ha, hc]

/-- Witness for C10: a 200 response whose only index has neither "aqi" nor
"category" yields AQI 0, category "Unknown" and `mask_needed = "No"`, via
`air_quality_missing_aqi_defaults`. -/
theorem air_quality_missing_aqi_defaults_witness :
    get_air_quality ⟨200, [⟨none, none⟩]⟩ = .ok ⟨0, "Unknown", "No"⟩ := by
  exact (air_quality_missing_aqi_defaults ⟨200, [⟨none, none⟩]⟩
    ⟨none, none⟩ [] rfl rfl rfl).2 rfl

/-! ## Claim theorems: tool-calling loop -/

/-- C2: in every iteration, the messages appended by the dispatch of one
assistant turn are exactly one tool-result per request whose tool name is
registered, in order, each carrying the `tool_call_id` of its originating
request. -/
theorem tool_results_match_requests (tool_map : ToolMap) (tcs : List ToolCall)
    (messages msgs2 : List Message)
    (h : (execToolCalls tool_map tcs messages).1 = .ok msgs2) :
    ∃ suffix : List Message,
      msgs2 = messages ++ suffix ∧
      suffix.length =
        (tcs.filter fun tc => (tool_map tc.name).isSome).length ∧
      suffix.map msgToolId =
        (tcs.filter fun tc => (tool_map tc.name).isSome).map
          (fun tc => some tc.id) := by
  obtain ⟨suffix, hs, hm⟩ := execToolCalls_ok_spec tool_map tcs messages msgs2 h
  refine ⟨suffix, hs, ?_, hm⟩
  have hlen := congrArg List.length hm
  simpa using hlen

/-- Witness for C2: dispatching one registered and one unregistered request
appends exactly one tool-result, carrying the registered request's id, via
`tool_results_match_requests` on concrete inputs. -/
theorem tool_results_match_requests_witness :
    ∃ suffix : List Message,
      [Message.toolMsg "aqi 42" "id1"] = [] ++ suffix ∧
      suffix.length =
        (mixedTCs.filter fun tc => (demoToolMap tc.name).isSome).length ∧
      suffix.map msgToolId =
        (mixedTCs.filter fun tc => (demoToolMap tc.name).isSome).map
          (fun tc => some tc.id) :=
  tool_results_match_requests demoToolMap mixedTCs []
    [Message.toolMsg "aqi 42" "id1"] (by rfl)

/-- C8: a request naming an unregistered tool produces the not-found
diagnostic and no tool-result for its id (assuming, per the data model, that
no registered request of the turn shares its id), when the dispatch of the
turn completes. -/
theorem unknown_tool_dropped (tool_map : ToolMap) (tcs : List ToolCall)
    (messages msgs2 : List Message) (tc : ToolCall)
    (hmem : tc ∈ tcs) (hnone : tool_map tc.name = none)
    (hok : (execToolCalls tool_map tcs messages).1 = .ok msgs2)
    (hid : ∀ c ∈ tcs, c.id = tc.id → tool_map c.name = none) :
    LogEntry.notFound tc.name ∈ (execToolCalls tool_map tcs messages).2 ∧
    ∀ m ∈ msgs2, msgToolId m = some tc.id → m ∈ messages := by
  refine ⟨execToolCalls_notFound_log tool_map tcs messages msgs2 tc
    hmem hnone hok, ?_⟩
  obtain ⟨suffix, rfl, hm⟩ := execToolCalls_ok_spec tool_map tcs messages msgs2 hok
  intro m hmm hmid
  rcases List.mem_append.mp hmm with h1 | h2
  · exact h1
  · exfalso
    have hin : some tc.id ∈ suffix.map msgToolId :=
      List.mem_map.mpr ⟨m, h2, hmid⟩
    rw [hm] at hin
    obtain ⟨c, hcmem, hcid⟩ := List.mem_map.mp hin
    have hcf := List.mem_filter.mp hcmem
    have hcnone : tool_map c.name = none :=
      hid c hcf.1 (Option.some.inj hcid)
    rw [hcnone] at hcf
    exact absurd hcf.2 (by simp)

/-- Witness for C8: the unregistered request for "book_hotel" gets the
not-found diagnostic and leaves no tool-result carrying its id, via
`unknown_tool_dropped` on concrete inputs. -/
theorem unknown_tool_dropped_witness :
    LogEntry.notFound "book_hotel" ∈ (execToolCalls demoToolMap mixedTCs []).2 ∧
    ∀ m ∈ [Message.toolMsg "aqi 42" "id1"],
      msgToolId m = some "id2" → m ∈ ([] : List Message) := by
  have hid : ∀ c ∈ mixedTCs, c.id = "id2" → demoToolMap c.name = none := by
    intro c hc hcid
    simp only [mixedTCs, List.mem_cons, List.not_mem_nil, or_false] at hc
    rcases hc with rfl | rfl
    · exact absurd hcid (by decide)
    · rfl
  exact unknown_tool_dropped demoToolMap mixedTCs []
    [Message.toolMsg "aqi 42" "id1"]
    ⟨"book_hotel", [("city", "Paris")], "id2"⟩ (by decide) rfl (by rfl) hid

/-- Counterexample to C1 as stated: for the tool map whose weather adapter
raises, `run_agent_with_tools` does not return the accumulated Conversation
State at all — the exception propagates. -/
theorem run_agent_not_returning_cex :
    (run_agent_with_tools cexLLM cexToolMap demoInit 15).1 = .error "boom" := by
  rfl

/-- C1 (amended): for every model behaviour, tool map and initial message
list, `run_agent_with_tools` terminates (it is a total function of the
budget), performs at most `max_iterations` model invocations, and — whenever
no dispatched adapter raises — returns the accumulated Conversation State,
which extends the input; in particular it always returns it when every
registered adapter returns normally. -/
theorem run_agent_bounded (llm : LLM) (tool_map : ToolMap)
    (messages : List Message) (max_iterations : Nat) :
    (run_agent_with_tools llm tool_map messages max_iterations).2 ≤
      max_iterations ∧
    (∀ msgs2,
      (run_agent_with_tools llm tool_map messages max_iterations).1 =
        .ok msgs2 → ∃ t, msgs2 = messages ++ t) ∧
    ((∀ nm f, tool_map nm = some f → ∀ a, ∃ r, f a = .ok r) →
      ∃ msgs2,
        (run_agent_with_tools llm tool_map messages max_iterations).1 =
          .ok msgs2) :=
  ⟨runLoop_count_le llm tool_map max_iterations messages,
   fun msgs2 h => runLoop_ok_append llm tool_map max_iterations messages msgs2 h,
   fun htot => runLoop_total llm tool_map htot max_iterations messages⟩

/-- Witness for C1: the demo scenario performs at most 15 model invocations
and returns the accumulated Conversation State, via `run_agent_bounded`. -/
theorem run_agent_bounded_witness :
    (run_agent_with_tools demoLLM demoToolMap demoInit 15).2 ≤ 15 ∧
    (∃ t, demoFinal = demoInit ++ t) ∧
    (∃ msgs2,
      (run_agent_with_tools demoLLM demoToolMap demoInit 15).1 = .ok msgs2) := by
  refine ⟨(run_agent_bounded demoLLM demoToolMap demoInit 15).1, ?_, ?_⟩
  · exact (run_agent_bounded demoLLM demoToolMap demoInit 15).2.1 demoFinal (by rfl)
  · refine (run_agent_bounded demoLLM demoToolMap demoInit 15).2.2 ?_
    intro nm f hf a
    unfold demoToolMap at hf
    split at hf
    · injection hf with hfun
      subst hfun
      exact ⟨"aqi 42", rfl⟩
    · exact Option.noConfusion hf

/-- C3 is violated by the code: `run_agent_with_tools` has no `try`/`except`
around `tool_map[tool_name].invoke(tool_args)`, so an exception raised inside
an adapter (here, a JSON decoding error) propagates out of the loop instead of
being captured as an error-payload tool-result. -/
theorem adapter_exception_propagates :
    (run_agent_with_tools raiseLLM raiseToolMap demoInit 15).1 =
      .error "JSONDecodeError: Expecting value" := by
  rfl

/-- C9: Conversation State is append-only: any execution with a positive
iteration budget that returns does so with the input sequence as a strict
prefix of the result — each iteration appends at least the assistant message
and never edits or removes earlier messages. -/
theorem conversation_append_only (llm : LLM) (tool_map : ToolMap)
    (messages msgs2 : List Message) (max_iterations : Nat)
    (hpos : 0 < max_iterations)
    (hok : (run_agent_with_tools llm tool_map messages max_iterations).1 =
      .ok msgs2) :
    ∃ t, t ≠ [] ∧ msgs2 = messages ++ t := by
  obtain ⟨n, rfl⟩ : ∃ n, max_iterations = n + 1 :=
    ⟨max_iterations - 1, (Nat.succ_pred_eq_of_pos hpos).symm⟩
  unfold run_agent_with_tools at hok
  by_cases hresp : (llm messages).2 = []
  · simp only [runLoop, if_pos hresp, Except.ok.injEq] at hok
    exact ⟨[Message.ai (llm messages).1 (llm messages).2], by simp, hok.symm⟩
  · cases hexec : (execToolCalls tool_map (llm messages).2
        (messages ++ [Message.ai (llm messages).1 (llm messages).2])).1 with
    | ok m2 =>
      simp only [runLoop, if_neg hresp, hexec] at hok
      obtain ⟨t2, ht2⟩ := runLoop_ok_append llm tool_map n m2 msgs2 hok
      obtain ⟨t1, ht1, -⟩ := execToolCalls_ok_spec tool_map _ _ _ hexec
      exact ⟨[Message.ai (llm messages).1 (llm messages).2] ++ t1 ++ t2,
        by simp, by simp [ht2, ht1]⟩
    | error e => simp [runLoop, hresp, hexec] at hok

/-- Witness for C9: the demo run returns `demoFinal`, which strictly extends
the seeded Conversation State, via `conversation_append_only`. -/
theorem conversation_append_only_witness :
    ∃ t, t ≠ [] ∧ demoFinal = demoInit ++ t :=
  conversation_append_only demoLLM demoToolMap demoInit demoFinal 15
    (by decide) (by rfl)
